import Mathlib

/-!
Shallow embedding of the StageForge dual-mode playback core
(src/modes/scene.js, src/modes/renderer.js, src/obs/controller.js,
src/libreoffice/controller.js, src/utils/obs-scene-factory.js,
src/utils/constants.js, src/main.js).

Remote OBS websocket calls are modelled by an environment oracle
`ObsEnv.ok` saying which wire calls succeed, together with an explicit
container-name state for the two calls whose core semantics is
existence-dependent (`RemoveScene` fails when the scene is absent,
`CreateScene` fails on a duplicate name).  Every operation returns its
result, the updated state(s) and the trace of remote calls attempted.
-/

/-- Constants from src/utils/constants.js (SCENE naming). -/
def SCENE_PREFIX_ : String := "SF_"

/-- Constant ACT_PREFIX from src/utils/constants.js. -/
def ACT_PREFIX_ : String := "_Act"

/-- Constant RENDERER_SUFFIX from src/utils/constants.js. -/
def RENDERER_SUFFIX : String := "_Renderer"

/-- Constant BLACKOUT_SCENE from src/utils/constants.js (config.json is not
present in the repository, so the code's `config?.scene?.blackoutSceneName ||
CONSTANTS.BLACKOUT_SCENE` fallback resolves to the constant). -/
def BLACKOUT_SCENE : String := "StageForge_Blackout"

/-- Key map CONSTANTS.KEYS consulted by LibreOfficeController.sendKey
(`CONSTANTS.KEYS[key.toUpperCase()] || key`). -/
def KEYS : String → String
  | "next" => "Right"
  | "prev" => "Left"
  | "first" => "Home"
  | "last" => "End"
  | "exit" => "Escape"
  | "fullscreen" => "F5"
  | k => k

/-- One act (slide) of a program, as read by the core (src/modes/scene.js). -/
structure Act where
  name : String
  imagePath : Option String
  videoPath : Option String
  hasVideo : Bool
deriving DecidableEq, Repr

/-- A program record (slide deck + mode metadata) as consumed by the modes. -/
structure Program where
  id : String
  name : String
  filePath : String
  slideCount : Nat
  acts : List Act
deriving DecidableEq, Repr

/-- One scene-item record returned by the GetSceneItemList wire call. -/
structure SceneItem where
  sceneItemId : Nat
  sourceName : String
deriving DecidableEq, Repr

/-- Wire calls issued against the OBS websocket, plus LibreOffice process
effects (key dispatch, kill signals), recorded in traces. -/
inductive RCall where
  | removeScene (sceneName : String)
  | createScene (sceneName : String)
  | createInput (sceneName : String) (inputName : String) (inputKind : String)
  | getSceneItemList (sceneName : String)
  | setSceneItemTransform (sceneName : String) (sceneItemId : Nat)
  | setCurrentProgramScene (sceneName : String)
  | obsConnectCall
  | loSpawn
  | loSendKey (key : String)
  | loKill (signal : String)
  | loScheduleKill (signal : String)
deriving DecidableEq, Repr

/-- Errors raised by the core (JS `throw new Error(...)` sites). -/
inductive Err where
  | noProgramProvided
  | notConnectedToOBS
  | invalidSceneIndex
  | noScenesLoaded
  | noProgramLoaded
  | loNotFound
  | loNotRunning
  | loSpawnFailed
  | connectFailed (inner : Err)
  | remoteCallFailed (c : RCall)
deriving DecidableEq, Repr

/-- The set of container (scene) names existing in the remote service. -/
abbrev Containers := List String

/-- Oracle for the remote service: which wire calls succeed, and what
GetSceneItemList returns per scene. -/
structure ObsEnv where
  ok : RCall → Bool
  items : String → List SceneItem

/-- Outcome of an OBS-layer action: result, container state, trace. -/
structure OOut (α : Type) where
  res : Except Err α
  st : Containers
  tr : List RCall
deriving Repr

/-- Wire call RemoveScene: fails when the scene is absent (callers must
tolerate), otherwise succeeds when the oracle allows it and removes the name. -/
def callRemoveScene (env : ObsEnv) (st : Containers) (n : String) : OOut Unit :=
  if st.contains n && env.ok (.removeScene n) then
    ⟨.ok (), st.filter (fun x => x != n), [.removeScene n]⟩
  else
    ⟨.error (.remoteCallFailed (.removeScene n)), st, [.removeScene n]⟩

/-- Wire call CreateScene: fails on a duplicate name or when the oracle
denies it, otherwise appends the new container name. -/
def callCreateScene (env : ObsEnv) (st : Containers) (n : String) : OOut Unit :=
  if st.contains n then
    ⟨.error (.remoteCallFailed (.createScene n)), st, [.createScene n]⟩
  else if env.ok (.createScene n) then
    ⟨.ok (), st ++ [n], [.createScene n]⟩
  else
    ⟨.error (.remoteCallFailed (.createScene n)), st, [.createScene n]⟩

/-- Wire call CreateInput (source binding); success per oracle. -/
def callCreateInput (env : ObsEnv) (st : Containers)
    (scene inputName inputKind : String) : OOut Unit :=
  if env.ok (.createInput scene inputName inputKind) then
    ⟨.ok (), st, [.createInput scene inputName inputKind]⟩
  else
    ⟨.error (.remoteCallFailed (.createInput scene inputName inputKind)), st,
      [.createInput scene inputName inputKind]⟩

/-- Wire call GetSceneItemList; success per oracle, items per oracle. -/
def callGetSceneItemList (env : ObsEnv) (st : Containers) (scene : String) :
    OOut (List SceneItem) :=
  if env.ok (.getSceneItemList scene) then
    ⟨.ok (env.items scene), st, [.getSceneItemList scene]⟩
  else
    ⟨.error (.remoteCallFailed (.getSceneItemList scene)), st,
      [.getSceneItemList scene]⟩

/-- Wire call SetSceneItemTransform; success per oracle (the transform
parameters come from config/constants and do not affect control flow). -/
def callSetSceneItemTransform (env : ObsEnv) (st : Containers)
    (scene : String) (itemId : Nat) : OOut Unit :=
  if env.ok (.setSceneItemTransform scene itemId) then
    ⟨.ok (), st, [.setSceneItemTransform scene itemId]⟩
  else
    ⟨.error (.remoteCallFailed (.setSceneItemTransform scene itemId)), st,
      [.setSceneItemTransform scene itemId]⟩

/-- Wire call SetCurrentProgramScene; success per oracle. -/
def callSetCurrentProgramScene (env : ObsEnv) (st : Containers) (n : String) :
    OOut Unit :=
  if env.ok (.setCurrentProgramScene n) then
    ⟨.ok (), st, [.setCurrentProgramScene n]⟩
  else
    ⟨.error (.remoteCallFailed (.setCurrentProgramScene n)), st,
      [.setCurrentProgramScene n]⟩

/-- OBSSceneFactory.createScene: try RemoveScene (a failure is caught and
ignored — the scene may not exist), then unconditionally CreateScene. -/
def factoryCreateScene (env : ObsEnv) (st : Containers) (n : String) :
    OOut String :=
  let r := callRemoveScene env st n
  let c := callCreateScene env r.st n
  ⟨c.res.map (fun _ => n), c.st, r.tr ++ c.tr⟩

/-- OBSSceneFactory.addImageSource: CreateInput(image_source), then
GetSceneItemList, then a transform on the first item when the list is
non-empty; every failure propagates. -/
def addImageSource (env : ObsEnv) (st : Containers) (scene _path : String) :
    OOut String :=
  let inputName := scene ++ "_Image"
  let c := callCreateInput env st scene inputName "image_source"
  match c.res with
  | .error e => ⟨.error e, c.st, c.tr⟩
  | .ok _ =>
    let g := callGetSceneItemList env c.st scene
    match g.res with
    | .error e => ⟨.error e, g.st, c.tr ++ g.tr⟩
    | .ok items =>
      match items with
      | [] => ⟨.ok inputName, g.st, c.tr ++ g.tr⟩
      | item :: _ =>
        let t := callSetSceneItemTransform env g.st scene item.sceneItemId
        ⟨t.res.map (fun _ => inputName), t.st, c.tr ++ g.tr ++ t.tr⟩

/-- OBSSceneFactory.addVideoSource: the whole body is wrapped in a
try/catch whose catch only logs, so every internal failure is swallowed
and the input name is returned regardless. -/
def addVideoSource (env : ObsEnv) (st : Containers) (scene _path : String) :
    OOut String :=
  let inputName := scene ++ "_Video"
  let c := callCreateInput env st scene inputName "ffmpeg_source"
  match c.res with
  | .error _ => ⟨.ok inputName, c.st, c.tr⟩
  | .ok _ =>
    let g := callGetSceneItemList env c.st scene
    match g.res with
    | .error _ => ⟨.ok inputName, g.st, c.tr ++ g.tr⟩
    | .ok items =>
      match items.find? (fun it => it.sourceName == inputName) with
      | none => ⟨.ok inputName, g.st, c.tr ++ g.tr⟩
      | some vi =>
        let t := callSetSceneItemTransform env g.st scene vi.sceneItemId
        ⟨.ok inputName, t.st, c.tr ++ g.tr ++ t.tr⟩

/-- Name of the nested video sub-container: parent name + "_Video" +
1-based sub-index. -/
def videoSubsceneName (parent : String) (subIdx : Nat) : String :=
  parent ++ "_Video" ++ toString (subIdx + 1)

/-- OBSSceneFactory.createVideoSubscene: replace-create the nested
sub-container, then add the media source to it; a createScene failure
propagates (addVideoSource cannot fail). -/
def createVideoSubscene (env : ObsEnv) (st : Containers)
    (parent _path : String) (subIdx : Nat) : OOut String :=
  let n := videoSubsceneName parent subIdx
  let c := factoryCreateScene env st n
  match c.res with
  | .error e => ⟨.error e, c.st, c.tr⟩
  | .ok _ =>
    let v := addVideoSource env c.st n _path
    ⟨v.res.map (fun _ => n), v.st, c.tr ++ v.tr⟩

/-- OBSSceneFactory.switchToScene: SetCurrentProgramScene. -/
def switchToScene (env : ObsEnv) (st : Containers) (n : String) : OOut Unit :=
  callSetCurrentProgramScene env st n

/-- OBSSceneFactory.sceneExists: GetSceneItemList, true on success, false on
any failure (never throws). -/
def sceneExists (env : ObsEnv) (st : Containers) (n : String) :
    Bool × Containers × List RCall :=
  (env.ok (.getSceneItemList n), st, [.getSceneItemList n])

/-- OBSSceneFactory.addColorSource: CreateInput(color_source_v3) wrapped in
a try/catch whose catch only logs — failures are swallowed. -/
def addColorSource (env : ObsEnv) (st : Containers) (scene : String) :
    OOut String :=
  let inputName := scene ++ "_Color"
  let c := callCreateInput env st scene inputName "color_source_v3"
  ⟨.ok inputName, c.st, c.tr⟩

/-- One record of SceneMode's `this.scenes` list (the fields pushed in
SceneMode._createScenes; `videoSubscene`/`hasVideo` are only set when the
act declares a video). -/
structure SceneData where
  name : String
  actIndex : Nat
  actName : String
  videoSubscene : Option String
  hasVideo : Bool
deriving DecidableEq, Repr

/-- Session state of the SceneMode controller (fields of the JS class;
`obsConnected` stands for `this.obs && this.obs.connected`). -/
structure SceneMode where
  obsConnected : Bool
  currentProgram : Option Program
  currentSceneIndex : Int
  scenes : List SceneData
deriving Repr

/-- Outcome of a SceneMode operation: result, controller state, remote
container state, trace of remote calls. -/
structure MOut (α : Type) where
  res : Except Err α
  mode : SceneMode
  st : Containers
  tr : List RCall

/-- Status object returned by SceneMode.getStatus. -/
structure SceneStatus where
  mode : String
  programLoaded : Bool
  currentScene : Int
  totalScenes : Nat
  scenes : List SceneData
deriving DecidableEq, Repr

/-- Scene name for act index i (zero-based):
`SCENE_PREFIX + program.id + ACT_PREFIX + (i+1)`. -/
def sceneNameFor (p : Program) (i : Nat) : String :=
  SCENE_PREFIX_ ++ p.id ++ ACT_PREFIX_ ++ toString (i + 1)

/-- The record SceneMode._createScenes pushes for act i once all of its
steps succeeded (pure: the subscene name is deterministic). -/
def sceneRecord (p : Program) (i : Nat) (a : Act) : SceneData :=
  let n := sceneNameFor p i
  if a.hasVideo && a.videoPath.isSome then
    ⟨n, i, a.name, some (videoSubsceneName n 0), true⟩
  else
    ⟨n, i, a.name, none, false⟩

/-- Container names created for act i (the act scene, plus the nested
video sub-container when the act declares a video). -/
def actNames (p : Program) (i : Nat) (a : Act) : List String :=
  sceneNameFor p i ::
    (if a.hasVideo && a.videoPath.isSome then
      [videoSubsceneName (sceneNameFor p i) 0]
     else [])

/-- Container names created for the acts of `acts`, starting at index i. -/
def namesFrom (p : Program) : Nat → List Act → List String
  | _, [] => []
  | i, a :: rest => actNames p i a ++ namesFrom p (i + 1) rest

/-- Expected scene records for `acts` starting at index i. -/
def expectedFrom (p : Program) : Nat → List Act → List SceneData
  | _, [] => []
  | i, a :: rest => sceneRecord p i a :: expectedFrom p (i + 1) rest

/-- Expected scene records of a full program. -/
def expectedScenes (p : Program) : List SceneData :=
  expectedFrom p 0 p.acts

/-- The body of one iteration of SceneMode._createScenes' loop: replace-create
the act scene, bind the image when `act.imagePath` is set, and create the
nested video sub-container when `act.hasVideo && act.videoPath`; the loop's
catch only logs and rethrows, so every error propagates. -/
def processAct (env : ObsEnv) (p : Program) (i : Nat) (a : Act)
    (st : Containers) : OOut Unit :=
  let n := sceneNameFor p i
  let c := factoryCreateScene env st n
  match c.res with
  | .error e => ⟨.error e, c.st, c.tr⟩
  | .ok _ =>
    let img : OOut Unit :=
      match a.imagePath with
      | some ip =>
        let r := addImageSource env c.st n ip
        ⟨r.res.map (fun _ => ()), r.st, r.tr⟩
      | none => ⟨.ok (), c.st, []⟩
    match img.res with
    | .error e => ⟨.error e, img.st, c.tr ++ img.tr⟩
    | .ok _ =>
      let vid : OOut Unit :=
        if a.hasVideo then
          match a.videoPath with
          | some vp =>
            let r := createVideoSubscene env img.st n vp 0
            ⟨r.res.map (fun _ => ()), r.st, r.tr⟩
          | none => ⟨.ok (), img.st, []⟩
        else ⟨.ok (), img.st, []⟩
      ⟨vid.res, vid.st, c.tr ++ img.tr ++ vid.tr⟩

/-- The loop of SceneMode._createScenes: processes acts in order starting at
index i, pushing each act's record onto the accumulated `this.scenes` list
only after every step of that act succeeded; the first failure aborts the
loop, keeping the records accumulated so far (JS mutation persists). -/
def createScenesLoop (env : ObsEnv) (p : Program) :
    List Act → Nat → List SceneData → Containers →
    Except Err Unit × List SceneData × Containers × List RCall
  | [], _, acc, st => (.ok (), acc, st, [])
  | a :: rest, i, acc, st =>
    let r := processAct env p i a st
    match r.res with
    | .error e => (.error e, acc, r.st, r.tr)
    | .ok _ =>
      let k := createScenesLoop env p rest (i + 1) (acc ++ [sceneRecord p i a]) r.st
      (k.1, k.2.1, k.2.2.1, r.tr ++ k.2.2.2)

/-- SceneMode._createScenes: checks the connection, resets `this.scenes`,
then runs the per-act loop; the resulting (possibly partial) record list is
kept in the controller state even when the loop aborts. -/
def SceneMode.createScenes (env : ObsEnv) (p : Program) (m : SceneMode)
    (st : Containers) : MOut Unit :=
  if !m.obsConnected then ⟨.error .notConnectedToOBS, m, st, []⟩
  else
    let r := createScenesLoop env p p.acts 0 [] st
    ⟨r.1, { m with scenes := r.2.1 }, r.2.2.1, r.2.2.2⟩

/-- SceneMode.loadProgram: rejects a missing program, records the program,
resets the position sentinel and the scene list, and synthesizes the scene
topology only when a remote session is active. -/
def SceneMode.loadProgram (env : ObsEnv) (prog : Option Program)
    (m : SceneMode) (st : Containers) : MOut Program :=
  match prog with
  | none => ⟨.error .noProgramProvided, m, st, []⟩
  | some p =>
    let m1 : SceneMode :=
      { m with currentProgram := some p, currentSceneIndex := -1, scenes := [] }
    if m1.obsConnected then
      let r := SceneMode.createScenes env p m1 st
      ⟨r.res.map (fun _ => p), r.mode, r.st, r.tr⟩
    else ⟨.ok p, m1, st, []⟩

/-- SceneMode._jumpToScene: not-connected check first, then the index-range
check, then the container switch; the position is updated only after the
switch succeeded. -/
def SceneMode.jumpToScene (env : ObsEnv) (m : SceneMode) (st : Containers)
    (sceneIndex : Int) : MOut SceneData :=
  if !m.obsConnected then ⟨.error .notConnectedToOBS, m, st, []⟩
  else if sceneIndex < 0 ∨ (m.scenes.length : Int) ≤ sceneIndex then
    ⟨.error .invalidSceneIndex, m, st, []⟩
  else
    let scene := m.scenes.getD sceneIndex.toNat ⟨"", 0, "", none, false⟩
    let sw := switchToScene env st scene.name
    match sw.res with
    | .error e => ⟨.error e, m, sw.st, sw.tr⟩
    | .ok _ =>
      ⟨.ok scene, { m with currentSceneIndex := sceneIndex }, sw.st, sw.tr⟩

/-- SceneMode.next: `_validateScenesLoaded`, then jump to
`min(current + 1, count - 1)`. -/
def SceneMode.next (env : ObsEnv) (m : SceneMode) (st : Containers) :
    MOut SceneData :=
  if m.scenes.length = 0 then ⟨.error .noScenesLoaded, m, st, []⟩
  else
    SceneMode.jumpToScene env m st
      (min (m.currentSceneIndex + 1) ((m.scenes.length : Int) - 1))

/-- SceneMode.prev: `_validateScenesLoaded`, then jump to
`max(current - 1, 0)`. -/
def SceneMode.prev (env : ObsEnv) (m : SceneMode) (st : Containers) :
    MOut SceneData :=
  if m.scenes.length = 0 then ⟨.error .noScenesLoaded, m, st, []⟩
  else
    SceneMode.jumpToScene env m st (max (m.currentSceneIndex - 1) 0)

/-- SceneMode.first: jump to index 0 (no guard). -/
def SceneMode.first (env : ObsEnv) (m : SceneMode) (st : Containers) :
    MOut SceneData :=
  SceneMode.jumpToScene env m st 0

/-- SceneMode.last: jump to the final index when any scenes exist, else
a silent no-op. -/
def SceneMode.last (env : ObsEnv) (m : SceneMode) (st : Containers) :
    MOut Unit :=
  if 0 < m.scenes.length then
    let r := SceneMode.jumpToScene env m st ((m.scenes.length : Int) - 1)
    ⟨r.res.map (fun _ => ()), r.mode, r.st, r.tr⟩
  else ⟨.ok (), m, st, []⟩

/-- SceneMode.start: jump to index 0 when any scenes exist, else no-op. -/
def SceneMode.start (env : ObsEnv) (m : SceneMode) (st : Containers) :
    MOut Unit :=
  if 0 < m.scenes.length then
    let r := SceneMode.jumpToScene env m st 0
    ⟨r.res.map (fun _ => ()), r.mode, r.st, r.tr⟩
  else ⟨.ok (), m, st, []⟩

/-- SceneMode.stop: resets the position sentinel; containers persist. -/
def SceneMode.stop (m : SceneMode) : SceneMode :=
  { m with currentSceneIndex := -1 }

/-- SceneMode.getStatus: pure read of session state. -/
def SceneMode.getStatus (m : SceneMode) : SceneStatus :=
  ⟨"scene", m.currentProgram.isSome, m.currentSceneIndex, m.scenes.length,
    m.scenes⟩

/-- Process-facing state of LibreOfficeController (`this.isRunning`,
`this.process !== null`, `this.currentFile`, `this.displayIndex`). -/
structure LOState where
  isRunning : Bool
  processAlive : Bool
  currentFile : Option String
  displayIndex : Nat
deriving DecidableEq, Repr

/-- Environment for the LibreOffice supervisor: executable availability
(the two-path probe of checkAvailability collapsed to its outcome), spawn
success, and whether the platform key-dispatch mechanism succeeds for a
given physical key (the dispatch mechanism is an external collaborator;
its failure is surfaced by sendKey, not swallowed). -/
structure LOEnv where
  available : Bool
  spawnOk : Bool
  sendKeyOk : String → Bool

/-- Outcome of a LibreOffice supervisor operation. -/
structure LOOut (α : Type) where
  res : Except Err α
  lo : LOState
  tr : List RCall

/-- LibreOfficeController.sendKey: fails when no live process is tracked;
otherwise translates the logical key through CONSTANTS.KEYS and attempts
the dispatch (the attempt is traced; a dispatch failure is surfaced). -/
def LO.sendKey (env : LOEnv) (lo : LOState) (key : String) : LOOut Unit :=
  if !lo.isRunning || !lo.processAlive then
    ⟨.error .loNotRunning, lo, []⟩
  else if env.sendKeyOk (KEYS key) then
    ⟨.ok (), lo, [.loSendKey (KEYS key)]⟩
  else
    ⟨.error (.remoteCallFailed (.loSendKey (KEYS key))), lo,
      [.loSendKey (KEYS key)]⟩

/-- LibreOfficeController.stop: no-op when not running; otherwise try the
graceful exit key, wait the grace window, send SIGTERM and schedule a later
SIGKILL; the catch swallows any failure and sends SIGKILL directly when a
process is tracked. `isRunning`/`currentFile` are cleared in every case and
stop itself never raises. -/
def LO.stop (env : LOEnv) (lo : LOState) : LOOut Unit :=
  if !lo.isRunning then ⟨.ok (), lo, []⟩
  else
    let sk := LO.sendKey env lo "exit"
    match sk.res with
    | .error _ =>
      let tr := sk.tr ++ (if lo.processAlive then [RCall.loKill "SIGKILL"] else [])
      ⟨.ok (), { lo with isRunning := false, currentFile := none }, tr⟩
    | .ok _ =>
      let tr := sk.tr ++
        (if lo.processAlive then
          [RCall.loKill "SIGTERM", RCall.loScheduleKill "SIGKILL"]
         else [])
      ⟨.ok (), { lo with isRunning := false, currentFile := none }, tr⟩

/-- LibreOfficeController.launch: stops any tracked process first, probes
availability, spawns, and resolves after the startup grace delay with the
process marked running (a spawn error rejects and marks not-running). -/
def LO.launch (env : LOEnv) (lo : LOState) (filePath : String)
    (display : Nat) : LOOut Unit :=
  let s := if lo.isRunning then LO.stop env lo else ⟨.ok (), lo, []⟩
  if !env.available then ⟨.error .loNotFound, s.lo, s.tr⟩
  else
    let lo1 : LOState :=
      { s.lo with currentFile := some filePath, displayIndex := display,
                  processAlive := true }
    if env.spawnOk then
      ⟨.ok (), { lo1 with isRunning := true }, s.tr ++ [.loSpawn]⟩
    else
      ⟨.error .loSpawnFailed, { lo1 with isRunning := false },
        s.tr ++ [.loSpawn]⟩

/-- Session state of the RendererMode controller (`obsConnected` stands for
`this.obs && this.obs.connected`; `sceneFactorySet` for
`this.sceneFactory !== null`). -/
structure RendererMode where
  obsConnected : Bool
  sceneFactorySet : Bool
  currentProgram : Option Program
  currentSlideIndex : Int
  lo : LOState
deriving Repr

/-- Outcome of a RendererMode operation. -/
structure ROut (α : Type) where
  res : Except Err α
  mode : RendererMode
  st : Containers
  tr : List RCall

/-- Status object returned by RendererMode.getStatus. -/
structure RendererStatus where
  mode : String
  programLoaded : Bool
  running : Bool
  currentSlide : Int
  totalSlides : Nat
deriving DecidableEq, Repr

/-- Capture scene name used by RendererMode:
`SCENE_PREFIX + program.id + RENDERER_SUFFIX`. -/
def rendererSceneNameFor (p : Program) : String :=
  SCENE_PREFIX_ ++ p.id ++ RENDERER_SUFFIX

/-- RendererMode.next: delegate the keystroke, then increment the local
position (no upper bound); on a keystroke failure the position is not
touched and the error propagates. -/
def RendererMode.next (env : LOEnv) (r : RendererMode) : ROut Unit :=
  let k := LO.sendKey env r.lo "next"
  match k.res with
  | .error e => ⟨.error e, { r with lo := k.lo }, [], k.tr⟩
  | .ok _ =>
    let r1 := { r with lo := k.lo }
    ⟨.ok (), { r1 with currentSlideIndex := r.currentSlideIndex + 1 }, [], k.tr⟩

/-- RendererMode.prev: silent no-op at position 0 (no remote action);
otherwise delegate the keystroke and decrement. -/
def RendererMode.prev (env : LOEnv) (r : RendererMode) : ROut Unit :=
  if 0 < r.currentSlideIndex then
    let k := LO.sendKey env r.lo "prev"
    match k.res with
    | .error e => ⟨.error e, { r with lo := k.lo }, [], k.tr⟩
    | .ok _ =>
      let r1 := { r with lo := k.lo }
      ⟨.ok (), { r1 with currentSlideIndex := r.currentSlideIndex - 1 }, [], k.tr⟩
  else ⟨.ok (), r, [], []⟩

/-- RendererMode.first: delegate the keystroke, position 0. -/
def RendererMode.first (env : LOEnv) (r : RendererMode) : ROut Unit :=
  let k := LO.sendKey env r.lo "first"
  match k.res with
  | .error e => ⟨.error e, { r with lo := k.lo }, [], k.tr⟩
  | .ok _ =>
    ⟨.ok (), { r with lo := k.lo, currentSlideIndex := 0 }, [], k.tr⟩

/-- RendererMode.last: delegate the keystroke, then position
`slideCount - 1` when a program is loaded. -/
def RendererMode.last (env : LOEnv) (r : RendererMode) : ROut Unit :=
  let k := LO.sendKey env r.lo "last"
  match k.res with
  | .error e => ⟨.error e, { r with lo := k.lo }, [], k.tr⟩
  | .ok _ =>
    match r.currentProgram with
    | some p =>
      let r1 := { r with lo := k.lo }
      ⟨.ok (), { r1 with currentSlideIndex := (p.slideCount : Int) - 1 }, [], k.tr⟩
    | none => ⟨.ok (), { r with lo := k.lo }, [], k.tr⟩

/-- RendererMode.start: requires a loaded program, launches LibreOffice
with the requested display (default 0), then — when connected with a scene
factory — switches OBS to the capture scene inside a try/catch whose catch
only logs (a switch failure is swallowed). -/
def RendererMode.start (env : LOEnv) (oenv : ObsEnv) (r : RendererMode)
    (st : Containers) (displayOpt : Option Nat) : ROut Unit :=
  match r.currentProgram with
  | none => ⟨.error .noProgramLoaded, r, st, []⟩
  | some p =>
    let la := LO.launch env r.lo p.filePath (displayOpt.getD 0)
    match la.res with
    | .error e => ⟨.error e, { r with lo := la.lo }, st, la.tr⟩
    | .ok _ =>
      let r1 := { r with lo := la.lo }
      if r1.obsConnected && r1.sceneFactorySet then
        let sw := switchToScene oenv st (rendererSceneNameFor p)
        ⟨.ok (), r1, sw.st, la.tr ++ sw.tr⟩
      else ⟨.ok (), r1, st, la.tr⟩

/-- RendererMode.stop: stops LibreOffice and resets the position to 0. -/
def RendererMode.stop (env : LOEnv) (r : RendererMode) : ROut Unit :=
  let s := LO.stop env r.lo
  ⟨.ok (), { r with lo := s.lo, currentSlideIndex := 0 }, [], s.tr⟩

/-- RendererMode.getStatus: pure read of session state. -/
def RendererMode.getStatus (r : RendererMode) : RendererStatus :=
  ⟨"renderer", r.currentProgram.isSome, r.lo.isRunning, r.currentSlideIndex,
    (r.currentProgram.map Program.slideCount).getD 0⟩

/-- Connection state of OBSController. -/
structure OBSController where
  connected : Bool
deriving DecidableEq, Repr

/-- Outcome of an OBSController operation. -/
structure COut (α : Type) where
  res : Except Err α
  ctrl : OBSController
  st : Containers
  tr : List RCall

/-- OBSController.ensureBlackoutScene: create-if-absent of the blackout
container (existence probed with sceneExists; addColorSource swallows its
own failures, but a createScene failure propagates). -/
def ensureBlackoutScene (env : ObsEnv) (st : Containers) : OOut Unit :=
  let ex := sceneExists env st BLACKOUT_SCENE
  if ex.1 then ⟨.ok (), ex.2.1, ex.2.2⟩
  else
    let c := factoryCreateScene env ex.2.1 BLACKOUT_SCENE
    match c.res with
    | .error e => ⟨.error e, c.st, ex.2.2 ++ c.tr⟩
    | .ok _ =>
      let col := addColorSource env c.st BLACKOUT_SCENE
      ⟨.ok (), col.st, ex.2.2 ++ c.tr ++ col.tr⟩

/-- OBSController.connect: the websocket connect, the connected flag flip
and ensureBlackoutScene all sit inside one try block; any failure (the
blackout-scene creation included) lands in the catch, which resets
`connected` to false and rethrows `Failed to connect to OBS`. -/
def OBSController.connect (env : ObsEnv) (c : OBSController)
    (st : Containers) : COut Unit :=
  if !env.ok .obsConnectCall then
    ⟨.error (.connectFailed (.remoteCallFailed .obsConnectCall)),
      { c with connected := false }, st, [.obsConnectCall]⟩
  else
    let c1 : OBSController := { c with connected := true }
    let eb := ensureBlackoutScene env st
    match eb.res with
    | .error e =>
      ⟨.error (.connectFailed e), { c1 with connected := false }, eb.st,
        RCall.obsConnectCall :: eb.tr⟩
    | .ok _ => ⟨.ok (), c1, eb.st, RCall.obsConnectCall :: eb.tr⟩

/-- Commands exposed across the outward IPC boundary (the `ipcMain.handle`
registrations of src/main.js). -/
inductive Cmd where
  | obsConnect
  | obsDisconnect
  | obsStatus
  | pptImport
  | pptSelect
  | programLoad
  | programList
  | sceneNext
  | scenePrev
  | sceneJump
  | sceneStart
  | sceneStop
  | sceneBlackout
  | sceneCurrent
  | displayList
  | displaySet
  | libreofficeStatus
deriving DecidableEq, Repr

/-- Shape of the object a handler returns to the shell: whether it carries
a `success` field (and its value) and whether it carries an `error` message
field (payload fields are elided — only the envelope structure matters). -/
structure IpcResponse where
  hasSuccess : Bool
  success : Bool
  hasError : Bool
  errorMsg : String
deriving DecidableEq, Repr

/-- Abstraction of a handler's inputs: per-command argument validity (the
`typeof` validations), whether the awaited internal operation chain throws
(and with what message), whether the file dialog was cancelled, and whether
a mode controller is active (`currentMode !== null`). -/
structure IpcEnv where
  argsValid : Cmd → Bool
  innerFails : Cmd → Option String
  dialogCanceled : Bool
  modeActive : Bool

/-- Success envelope `{success: true, ...payload}`. -/
def envOk : IpcResponse := ⟨true, true, false, ""⟩

/-- Failure envelope `{success: false, error: msg}`. -/
def envErr (msg : String) : IpcResponse := ⟨true, false, true, msg⟩

/-- Shared try/catch tail of most handlers: run the awaited internal
operation and map a thrown error into the failure envelope. -/
def tryInner (env : IpcEnv) (c : Cmd) : IpcResponse :=
  match env.innerFails c with
  | some m => envErr m
  | none => envOk

/-- The outward IPC command surface of src/main.js, one case per
`ipcMain.handle` registration, mirroring each handler's validation
branches and try/catch structure.  Of note: `obs:status` returns
`obsController.getStatus()` directly (a raw status object without a
`success` field and without a try/catch), and `ppt:select` returns
`{success: false}` with no error field when the dialog is cancelled.
`scene:jump` requires `currentMode.jumpToScene`, which neither mode class
exposes publicly (SceneMode only has the private `_jumpToScene`), so after
validation it always lands in the `Jump not supported` throw. -/
def handle (env : IpcEnv) : Cmd → IpcResponse
  | .obsConnect =>
    if !env.argsValid .obsConnect then envErr "Invalid configuration object"
    else tryInner env .obsConnect
  | .obsDisconnect => tryInner env .obsDisconnect
  | .obsStatus => ⟨false, false, false, ""⟩
  | .pptImport =>
    if !env.argsValid .pptImport then envErr "Invalid file paths"
    else tryInner env .pptImport
  | .pptSelect =>
    if env.dialogCanceled then ⟨true, false, false, ""⟩ else envOk
  | .programLoad =>
    if !env.argsValid .programLoad then envErr "Invalid program ID"
    else tryInner env .programLoad
  | .programList => tryInner env .programList
  | .sceneNext =>
    if env.modeActive then tryInner env .sceneNext
    else envErr "No program loaded"
  | .scenePrev =>
    if env.modeActive then tryInner env .scenePrev
    else envErr "No program loaded"
  | .sceneJump =>
    if !env.argsValid .sceneJump then envErr "Invalid scene index"
    else envErr "Jump not supported in current mode"
  | .sceneStart =>
    if !env.argsValid .sceneStart then envErr "Invalid options object"
    else if env.modeActive then tryInner env .sceneStart
    else envErr "No program loaded"
  | .sceneStop =>
    if env.modeActive then tryInner env .sceneStop else envOk
  | .sceneBlackout => tryInner env .sceneBlackout
  | .sceneCurrent =>
    if env.modeActive then tryInner env .sceneCurrent
    else envErr "No mode active"
  | .displayList => tryInner env .displayList
  | .displaySet =>
    if !env.argsValid .displaySet then envErr "Invalid display index"
    else tryInner env .displaySet
  | .libreofficeStatus => tryInner env .libreofficeStatus

/-- Oracle under which every remote call succeeds (and scene-item queries
return the empty list). -/
def envAllOk : ObsEnv := ⟨fun _ => true, fun _ => []⟩

/-- Sample act carrying only a video asset. -/
def actVideo : Act := ⟨"Act One", none, some "v.mp4", true⟩

/-- Sample one-act program with a video act (id "p"). -/
def progVideo : Program := ⟨"p", "P", "/p.pptx", 1, [actVideo]⟩

/-- Oracle failing exactly the media-source CreateInput of progVideo's
nested video sub-container, succeeding everywhere else. -/
def envMediaFail : ObsEnv :=
  ⟨fun c =>
    c != RCall.createInput "SF_p_Act1_Video1" "SF_p_Act1_Video1_Video"
      "ffmpeg_source",
   fun _ => []⟩

/-- Fresh SceneMode controller state with an active remote session. -/
def m0Scene : SceneMode := ⟨true, none, -1, []⟩

/-- Sample one-act image-only program (id "q", slideCount 1). -/
def prog1 : Program := ⟨"q", "Q", "/q.pptx", 1, [⟨"A1", some "i.png", none, false⟩]⟩

/-- Running LibreOffice process state. -/
def loRun : LOState := ⟨true, true, some "/q.pptx", 0⟩

/-- LibreOffice environment where everything works. -/
def envLOAllOk : LOEnv := ⟨true, true, fun _ => true⟩

/-- RendererMode state with prog1 loaded, renderer running, position 0. -/
def rendRun : RendererMode := ⟨false, false, some prog1, 0, loRun⟩

/-- Scene record of prog1's single act. -/
def sceneRec1 : SceneData := ⟨"SF_q_Act1", 0, "A1", none, false⟩

/-- SceneMode state: connected, prog1 loaded, one container, position 0. -/
def mScene0 : SceneMode := ⟨true, some prog1, 0, [sceneRec1]⟩

/-- Oracle where the websocket connect succeeds but the blackout scene is
absent (its existence probe fails) and its creation call fails. -/
def envBlackoutFail : ObsEnv :=
  ⟨fun c =>
    !(c == RCall.getSceneItemList "StageForge_Blackout" ||
      c == RCall.createScene "StageForge_Blackout"),
   fun _ => []⟩

/-- Disconnected OBSController state. -/
def obsCtrl0 : OBSController := ⟨false⟩

/-- Sample IPC environment: valid arguments, no internal failures, dialog
not cancelled, a mode controller active. -/
def ipcEnv0 : IpcEnv := ⟨fun _ => true, fun _ => none, false, true⟩

/-- SceneMode state like mScene0 but with no active remote session. -/
def mSceneDisc : SceneMode := ⟨false, some prog1, 0, [sceneRec1]⟩

/-- LibreOffice environment whose key-dispatch mechanism always fails. -/
def envLOKeyFail : LOEnv := ⟨true, true, fun _ => false⟩

/-- Oracle failing exactly the image-source CreateInput of prog1's act
container, succeeding everywhere else. -/
def envImageFail : ObsEnv :=
  ⟨fun c => c != RCall.createInput "SF_q_Act1" "SF_q_Act1_Image" "image_source",
   fun _ => []⟩

/-- Oracle failing exactly the CreateScene call of prog1's act container,
succeeding everywhere else. -/
def envCreateFail : ObsEnv :=
  ⟨fun c => c != RCall.createScene "SF_q_Act1", fun _ => []⟩

/-- A jump while disconnected is rejected by the not-connected check before
anything else, for every index. -/
theorem jumpToScene_not_connected (env : ObsEnv) (m : SceneMode)
    (st : Containers) (i : Int) (h : m.obsConnected = false) :
    SceneMode.jumpToScene env m st i = ⟨.error .notConnectedToOBS, m, st, []⟩ := by
  simp [SceneMode.jumpToScene, h]

/-- A jump with an active session, a universally succeeding switch call and
an in-range index succeeds and moves the position to that index. -/
theorem jumpToScene_ok (env : ObsEnv) (m : SceneMode) (st : Containers)
    (i : Int) (hconn : m.obsConnected = true)
    (hsw : ∀ n, env.ok (.setCurrentProgramScene n) = true)
    (h0 : 0 ≤ i) (h1 : i < (m.scenes.length : Int)) :
    (SceneMode.jumpToScene env m st i).res.isOk = true ∧
    (SceneMode.jumpToScene env m st i).mode.currentSceneIndex = i := by
  unfold SceneMode.jumpToScene
  rw [hconn]
  simp only [Bool.not_true, Bool.false_eq_true, if_false]
  rw [if_neg (by omega)]
  simp [switchToScene, callSetCurrentProgramScene, hsw, Except.isOk,
    Except.toBool]

/-- A jump leaves the scene list untouched, and the position either stays
put or becomes the (then necessarily in-range) target index. -/
theorem jumpToScene_mode (env : ObsEnv) (m : SceneMode) (st : Containers)
    (i : Int) :
    (SceneMode.jumpToScene env m st i).mode.scenes = m.scenes ∧
    ((SceneMode.jumpToScene env m st i).mode.currentSceneIndex
        = m.currentSceneIndex ∨
      (0 ≤ i ∧ i < (m.scenes.length : Int) ∧
        (SceneMode.jumpToScene env m st i).mode.currentSceneIndex = i)) := by
  unfold SceneMode.jumpToScene
  by_cases hc : m.obsConnected
  · simp only [hc, Bool.not_true, Bool.false_eq_true, if_false]
    by_cases hr : i < 0 ∨ (m.scenes.length : Int) ≤ i
    · simp [hr]
    · rw [if_neg hr]
      rcases hsw : (switchToScene env st
          (m.scenes.getD i.toNat ⟨"", 0, "", none, false⟩).name).res with e | v
      · simp [hsw]
      · simp [hsw]
        omega
  · simp [Bool.of_not_eq_true hc]

/-- A jump never raises the index-range error while disconnected. -/
theorem jumpToScene_no_index_error_of_not_connected (env : ObsEnv)
    (m : SceneMode) (st : Containers) (i : Int) (h : m.obsConnected = false) :
    (SceneMode.jumpToScene env m st i).res ≠ .error .invalidSceneIndex := by
  rw [jumpToScene_not_connected env m st i h]
  simp

/-- C1: in Scene-Graph mode with at least one container, next() targets
min(current + 1, count - 1) and prev() targets max(current - 1, 0): from
every reachable position (sentinel -1 included) and with a working switch
call, next() at the last container index leaves the position unchanged and
never raises the index-range error, prev() clamps at zero, and with an
empty container list both raise the NotLoaded error. -/
theorem sceneMode_next_prev_clamp (env : ObsEnv) (m : SceneMode)
    (st : Containers) (hconn : m.obsConnected = true)
    (hsw : ∀ n, env.ok (.setCurrentProgramScene n) = true)
    (hlo : -1 ≤ m.currentSceneIndex)
    (hhi : m.currentSceneIndex < (m.scenes.length : Int)) :
    (m.scenes ≠ [] →
      (SceneMode.next env m st).res.isOk = true ∧
      (SceneMode.next env m st).mode.currentSceneIndex
        = min (m.currentSceneIndex + 1) ((m.scenes.length : Int) - 1) ∧
      (SceneMode.prev env m st).res.isOk = true ∧
      (SceneMode.prev env m st).mode.currentSceneIndex
        = max (m.currentSceneIndex - 1) 0 ∧
      (m.currentSceneIndex = (m.scenes.length : Int) - 1 →
        (SceneMode.next env m st).mode.currentSceneIndex
          = m.currentSceneIndex) ∧
      (SceneMode.next env m st).res ≠ .error .invalidSceneIndex) ∧
    (m.scenes = [] →
      (SceneMode.next env m st).res = .error .noScenesLoaded ∧
      (SceneMode.prev env m st).res = .error .noScenesLoaded) := by
  constructor
  · intro hne
    have hlen : m.scenes.length ≠ 0 := by
      simpa [List.length_eq_zero] using hne
    have hnext := jumpToScene_ok env m st
      (min (m.currentSceneIndex + 1) ((m.scenes.length : Int) - 1))
      hconn hsw (by omega) (by omega)
    have hprev := jumpToScene_ok env m st
      (max (m.currentSceneIndex - 1) 0) hconn hsw (by omega) (by omega)
    have hnexteq : SceneMode.next env m st
        = SceneMode.jumpToScene env m st
            (min (m.currentSceneIndex + 1) ((m.scenes.length : Int) - 1)) := by
      unfold SceneMode.next
      rw [if_neg hlen]
    have hpreveq : SceneMode.prev env m st
        = SceneMode.jumpToScene env m st (max (m.currentSceneIndex - 1) 0) := by
      unfold SceneMode.prev
      rw [if_neg hlen]
    refine ⟨by rw [hnexteq]; exact hnext.1, by rw [hnexteq]; exact hnext.2,
      by rw [hpreveq]; exact hprev.1, by rw [hpreveq]; exact hprev.2, ?_, ?_⟩
    · intro hlast
      rw [hnexteq, hnext.2]
      omega
    · rw [hnexteq]
      intro hbad
      rw [hbad] at hnext
      simp [Except.isOk, Except.toBool] at hnext
  · intro hemp
    have hlen : m.scenes.length = 0 := by simp [hemp]
    constructor
    · unfold SceneMode.next
      rw [if_pos hlen]
    · unfold SceneMode.prev
      rw [if_pos hlen]

/-- A switch call is traced whether or not it succeeds. -/
theorem switchToScene_tr (env : ObsEnv) (st : Containers) (n : String) :
    (switchToScene env st n).tr = [.setCurrentProgramScene n] := by
  unfold switchToScene callSetCurrentProgramScene
  split <;> rfl

/-- An in-range jump with an active session traces exactly the one switch
call targeting the scene at the jump index, whether or not it succeeds. -/
theorem jumpToScene_tr_inrange (env : ObsEnv) (m : SceneMode)
    (st : Containers) (i : Int) (hconn : m.obsConnected = true)
    (h0 : 0 ≤ i) (h1 : i < (m.scenes.length : Int)) :
    (SceneMode.jumpToScene env m st i).tr
      = [.setCurrentProgramScene
          ((m.scenes.getD i.toNat ⟨"", 0, "", none, false⟩).name)] := by
  unfold SceneMode.jumpToScene
  rw [hconn]
  simp only [Bool.not_true, Bool.false_eq_true, if_false]
  rw [if_neg (by omega)]
  rcases hres : (switchToScene env st
      ((m.scenes.getD i.toNat ⟨"", 0, "", none, false⟩).name)).res with e | v <;>
    simp [hres, switchToScene_tr]

/-- A jump from an in-range position keeps the position in range and the
scene list untouched, whatever the target index and call outcome. -/
theorem jumpToScene_invariant (env : ObsEnv) (m : SceneMode)
    (st : Containers) (i : Int) (hm0 : 0 ≤ m.currentSceneIndex)
    (hm1 : m.currentSceneIndex < (m.scenes.length : Int)) :
    0 ≤ (SceneMode.jumpToScene env m st i).mode.currentSceneIndex ∧
    (SceneMode.jumpToScene env m st i).mode.currentSceneIndex
      < (m.scenes.length : Int) ∧
    (SceneMode.jumpToScene env m st i).mode.scenes = m.scenes := by
  obtain ⟨hs, hc⟩ := jumpToScene_mode env m st i
  rcases hc with h | ⟨h1, h2, h3⟩
  · exact ⟨by omega, by omega, hs⟩
  · exact ⟨by omega, by omega, hs⟩

/-- C9: while no remote session is active, SceneMode's not-connected check
precedes the index-range check: jumpToScene raises the connection error for
every index (out-of-range included), first does too, next/prev/last do so
whenever any containers exist, and none of them ever raises the
index-out-of-range error. -/
theorem notConnected_precedes_indexRange (env : ObsEnv) (m : SceneMode)
    (st : Containers) (h : m.obsConnected = false) :
    (∀ i : Int,
      (SceneMode.jumpToScene env m st i).res = .error .notConnectedToOBS) ∧
    (SceneMode.first env m st).res = .error .notConnectedToOBS ∧
    (m.scenes ≠ [] →
      (SceneMode.next env m st).res = .error .notConnectedToOBS ∧
      (SceneMode.prev env m st).res = .error .notConnectedToOBS ∧
      (SceneMode.last env m st).res = .error .notConnectedToOBS) ∧
    (SceneMode.next env m st).res ≠ .error .invalidSceneIndex ∧
    (SceneMode.prev env m st).res ≠ .error .invalidSceneIndex ∧
    (SceneMode.first env m st).res ≠ .error .invalidSceneIndex ∧
    (SceneMode.last env m st).res ≠ .error .invalidSceneIndex := by
  have hj : ∀ i : Int,
      SceneMode.jumpToScene env m st i = ⟨.error .notConnectedToOBS, m, st, []⟩ :=
    fun i => jumpToScene_not_connected env m st i h
  refine ⟨fun i => by rw [hj i], ?_, ?_, ?_, ?_, ?_, ?_⟩
  · show (SceneMode.jumpToScene env m st 0).res = _
    rw [hj 0]
  · intro hne
    have hlen : m.scenes.length ≠ 0 := by
      simpa [List.length_eq_zero] using hne
    refine ⟨?_, ?_, ?_⟩
    · unfold SceneMode.next
      rw [if_neg hlen, hj]
    · unfold SceneMode.prev
      rw [if_neg hlen, hj]
    · unfold SceneMode.last
      rw [if_pos (by omega), hj]
      rfl
  · unfold SceneMode.next
    by_cases hlen : m.scenes.length = 0
    · rw [if_pos hlen]
      simp
    · rw [if_neg hlen, hj]
      simp
  · unfold SceneMode.prev
    by_cases hlen : m.scenes.length = 0
    · rw [if_pos hlen]
      simp
    · rw [if_neg hlen, hj]
      simp
  · show (SceneMode.jumpToScene env m st 0).res ≠ _
    rw [hj 0]
    simp
  · unfold SceneMode.last
    by_cases hlen : 0 < m.scenes.length
    · rw [if_pos hlen, hj]
      simp [Except.map]
    · rw [if_neg hlen]
      simp

/-- Witness for notConnected_precedes_indexRange at the disconnected
state mSceneDisc. -/
theorem notConnected_precedes_indexRange_witness :
    (∀ i : Int,
      (SceneMode.jumpToScene envAllOk mSceneDisc [] i).res
        = .error .notConnectedToOBS) ∧
    (SceneMode.first envAllOk mSceneDisc []).res = .error .notConnectedToOBS ∧
    (mSceneDisc.scenes ≠ [] →
      (SceneMode.next envAllOk mSceneDisc []).res = .error .notConnectedToOBS ∧
      (SceneMode.prev envAllOk mSceneDisc []).res = .error .notConnectedToOBS ∧
      (SceneMode.last envAllOk mSceneDisc []).res = .error .notConnectedToOBS) ∧
    (SceneMode.next envAllOk mSceneDisc []).res ≠ .error .invalidSceneIndex ∧
    (SceneMode.prev envAllOk mSceneDisc []).res ≠ .error .invalidSceneIndex ∧
    (SceneMode.first envAllOk mSceneDisc []).res ≠ .error .invalidSceneIndex ∧
    (SceneMode.last envAllOk mSceneDisc []).res ≠ .error .invalidSceneIndex :=
  notConnected_precedes_indexRange envAllOk mSceneDisc [] (by decide)

/-- C5 counterexample: with prog1 (slideCount 1) loaded in Live-Render mode
and the renderer running at position 0, a single next() drives the position
to 1 = slideCount, outside [0, slideCount). -/
theorem renderer_next_exceeds_slideCount :
    (RendererMode.next envLOAllOk rendRun).mode.currentSlideIndex = 1 ∧
    prog1.slideCount = 1 ∧
    ¬ ((RendererMode.next envLOAllOk rendRun).mode.currentSlideIndex
        < (prog1.slideCount : Int)) := by
  refine ⟨by decide, rfl, by decide⟩

/-- C5 amended: in Scene-Graph mode every navigation operation keeps an
in-range position in [0, count) (and never touches the container list),
while in Live-Render mode next() increments the position without an upper
clamp, so repeated next() can pass slideCount. -/
theorem position_invariant_amended (oenv : ObsEnv) (lenv : LOEnv)
    (m : SceneMode) (st : Containers) (r : RendererMode)
    (hm0 : 0 ≤ m.currentSceneIndex)
    (hm1 : m.currentSceneIndex < (m.scenes.length : Int)) :
    (0 ≤ (SceneMode.next oenv m st).mode.currentSceneIndex ∧
      (SceneMode.next oenv m st).mode.currentSceneIndex
        < (m.scenes.length : Int)) ∧
    (0 ≤ (SceneMode.prev oenv m st).mode.currentSceneIndex ∧
      (SceneMode.prev oenv m st).mode.currentSceneIndex
        < (m.scenes.length : Int)) ∧
    (0 ≤ (SceneMode.first oenv m st).mode.currentSceneIndex ∧
      (SceneMode.first oenv m st).mode.currentSceneIndex
        < (m.scenes.length : Int)) ∧
    (0 ≤ (SceneMode.last oenv m st).mode.currentSceneIndex ∧
      (SceneMode.last oenv m st).mode.currentSceneIndex
        < (m.scenes.length : Int)) ∧
    (∀ i : Int,
      0 ≤ (SceneMode.jumpToScene oenv m st i).mode.currentSceneIndex ∧
      (SceneMode.jumpToScene oenv m st i).mode.currentSceneIndex
        < (m.scenes.length : Int)) ∧
    (r.lo.isRunning = true → r.lo.processAlive = true →
      lenv.sendKeyOk "Right" = true →
      (RendererMode.next lenv r).mode.currentSlideIndex
        = r.currentSlideIndex + 1) := by
  have hlen : m.scenes.length ≠ 0 := by omega
  refine ⟨?_, ?_, ?_, ?_, fun i => ?_, ?_⟩
  · have heq : SceneMode.next oenv m st
        = SceneMode.jumpToScene oenv m st
            (min (m.currentSceneIndex + 1) ((m.scenes.length : Int) - 1)) := by
      unfold SceneMode.next
      rw [if_neg hlen]
    rw [heq]
    have := jumpToScene_invariant oenv m st
      (min (m.currentSceneIndex + 1) ((m.scenes.length : Int) - 1)) hm0 hm1
    exact ⟨this.1, this.2.1⟩
  · have heq : SceneMode.prev oenv m st
        = SceneMode.jumpToScene oenv m st (max (m.currentSceneIndex - 1) 0) := by
      unfold SceneMode.prev
      rw [if_neg hlen]
    rw [heq]
    have := jumpToScene_invariant oenv m st
      (max (m.currentSceneIndex - 1) 0) hm0 hm1
    exact ⟨this.1, this.2.1⟩
  · have := jumpToScene_invariant oenv m st 0 hm0 hm1
    exact ⟨this.1, this.2.1⟩
  · unfold SceneMode.last
    rw [if_pos (by omega)]
    have := jumpToScene_invariant oenv m st ((m.scenes.length : Int) - 1) hm0 hm1
    exact ⟨this.1, this.2.1⟩
  · have := jumpToScene_invariant oenv m st i hm0 hm1
    exact ⟨this.1, this.2.1⟩
  · intro h1 h2 h3
    unfold RendererMode.next LO.sendKey
    simp [h1, h2, KEYS, h3]

/-- Witness for position_invariant_amended at mScene0 / rendRun under the
all-success environments. -/
theorem position_invariant_amended_witness :
    ((0 ≤ (SceneMode.next envAllOk mScene0 []).mode.currentSceneIndex ∧
      (SceneMode.next envAllOk mScene0 []).mode.currentSceneIndex
        < (mScene0.scenes.length : Int)) ∧
    (0 ≤ (SceneMode.prev envAllOk mScene0 []).mode.currentSceneIndex ∧
      (SceneMode.prev envAllOk mScene0 []).mode.currentSceneIndex
        < (mScene0.scenes.length : Int)) ∧
    (0 ≤ (SceneMode.first envAllOk mScene0 []).mode.currentSceneIndex ∧
      (SceneMode.first envAllOk mScene0 []).mode.currentSceneIndex
        < (mScene0.scenes.length : Int)) ∧
    (0 ≤ (SceneMode.last envAllOk mScene0 []).mode.currentSceneIndex ∧
      (SceneMode.last envAllOk mScene0 []).mode.currentSceneIndex
        < (mScene0.scenes.length : Int)) ∧
    (∀ i : Int,
      0 ≤ (SceneMode.jumpToScene envAllOk mScene0 [] i).mode.currentSceneIndex ∧
      (SceneMode.jumpToScene envAllOk mScene0 [] i).mode.currentSceneIndex
        < (mScene0.scenes.length : Int)) ∧
    (rendRun.lo.isRunning = true → rendRun.lo.processAlive = true →
      envLOAllOk.sendKeyOk "Right" = true →
      (RendererMode.next envLOAllOk rendRun).mode.currentSlideIndex
        = rendRun.currentSlideIndex + 1)) :=
  position_invariant_amended envAllOk envLOAllOk mScene0 [] rendRun
    (by decide) (by decide)

/-- C7 counterexample: in Scene-Graph mode at position 0 with an active
session, prev() does issue a remote container-switch call (back to container
0), although the position stays 0 — so "no remote call in both variants"
fails. -/
theorem scene_prev_at_zero_issues_call :
    (SceneMode.prev envAllOk mScene0 []).tr
      = [RCall.setCurrentProgramScene "SF_q_Act1"] ∧
    (SceneMode.prev envAllOk mScene0 []).mode.currentSceneIndex = 0 := by
  refine ⟨by decide, by decide⟩

/-- C7 amended: in the Live-Render variant prev() at position 0 performs no
remote action and leaves the state untouched; in the Scene-Graph variant
prev() at position 0 leaves the position at 0 but re-issues a
container-switch call targeting container 0. -/
theorem prev_at_zero_amended (lenv : LOEnv) (oenv : ObsEnv)
    (r : RendererMode) (m : SceneMode) (st : Containers)
    (hr : r.currentSlideIndex = 0)
    (hconn : m.obsConnected = true) (hne : m.scenes ≠ [])
    (hm : m.currentSceneIndex = 0) :
    RendererMode.prev lenv r = ⟨.ok (), r, [], []⟩ ∧
    (SceneMode.prev oenv m st).tr
      = [RCall.setCurrentProgramScene
          ((m.scenes.getD 0 ⟨"", 0, "", none, false⟩).name)] ∧
    (SceneMode.prev oenv m st).mode.currentSceneIndex = 0 := by
  have hlen : m.scenes.length ≠ 0 := by
    simpa [List.length_eq_zero] using hne
  have htgt : max (m.currentSceneIndex - 1) 0 = 0 := by omega
  have heq : SceneMode.prev oenv m st = SceneMode.jumpToScene oenv m st 0 := by
    unfold SceneMode.prev
    rw [if_neg hlen, htgt]
  refine ⟨?_, ?_, ?_⟩
  · unfold RendererMode.prev
    rw [hr]
    simp
  · rw [heq]
    have := jumpToScene_tr_inrange oenv m st 0 hconn (by omega) (by omega)
    simpa using this
  · rw [heq]
    rcases (jumpToScene_mode oenv m st 0).2 with h | ⟨_, _, h⟩ <;> omega

/-- Witness for prev_at_zero_amended at rendRun / mScene0. -/
theorem prev_at_zero_amended_witness :
    RendererMode.prev envLOAllOk rendRun = ⟨.ok (), rendRun, [], []⟩ ∧
    (SceneMode.prev envAllOk mScene0 []).tr
      = [RCall.setCurrentProgramScene
          ((mScene0.scenes.getD 0 ⟨"", 0, "", none, false⟩).name)] ∧
    (SceneMode.prev envAllOk mScene0 []).mode.currentSceneIndex = 0 :=
  prev_at_zero_amended envLOAllOk envAllOk rendRun mScene0 [] (by decide)
    (by decide) (by decide) (by decide)

/-- C2 counterexample: the `obs:status` handler returns
`obsController.getStatus()` directly, a raw status object that carries no
`success` field at all — so not every command returns the uniform
envelope. -/
theorem obs_status_no_envelope :
    (handle ipcEnv0 Cmd.obsStatus).hasSuccess = false := rfl

/-- C2 amended: every command except `obs:status` returns an envelope with
a boolean `success` field, and every failure envelope carries an error
message except the `ppt:select` dialog-cancel path (which returns
`{success: false}` with no error field); `obs:status` returns the raw
status object with no `success` field. -/
theorem ipc_envelope_amended (env : IpcEnv) (c : Cmd)
    (h : c ≠ Cmd.obsStatus) :
    (handle env c).hasSuccess = true ∧
    ((handle env c).success = false →
      (handle env c).hasError = true ∨ c = Cmd.pptSelect) := by
  have tri : ∀ c2, (tryInner env c2).hasSuccess = true ∧
      ((tryInner env c2).success = false →
        (tryInner env c2).hasError = true) := by
    intro c2
    unfold tryInner
    cases env.innerFails c2 <;> simp [envOk, envErr]
  cases c <;> simp only [handle] <;>
    first
      | exact absurd rfl h
      | (repeat' split) <;>
          first
            | exact ⟨(tri _).1, fun hh => Or.inl ((tri _).2 hh)⟩
            | simp [envOk, envErr]

/-- Witness for ipc_envelope_amended at the `scene:next` command. -/
theorem ipc_envelope_amended_witness :
    (handle ipcEnv0 Cmd.sceneNext).hasSuccess = true ∧
    ((handle ipcEnv0 Cmd.sceneNext).success = false →
      (handle ipcEnv0 Cmd.sceneNext).hasError = true ∨
      Cmd.sceneNext = Cmd.pptSelect) :=
  ipc_envelope_amended ipcEnv0 Cmd.sceneNext (by decide)

/-- C8: the supervisor's stop() never raises for any starting state, is a
pure no-op when nothing is running, always reports not-running afterwards,
and a failure of the graceful-exit step with a live process escalates
directly to SIGKILL with no intermediate SIGTERM. -/
theorem lo_stop_never_throws (env : LOEnv) (lo : LOState) :
    (LO.stop env lo).res = .ok () ∧
    (LO.stop env lo).lo.isRunning = false ∧
    (lo.isRunning = false → (LO.stop env lo).lo = lo ∧ (LO.stop env lo).tr = []) ∧
    (lo.isRunning = true → lo.processAlive = true →
      env.sendKeyOk "Escape" = false →
      (LO.stop env lo).tr = [RCall.loSendKey "Escape", RCall.loKill "SIGKILL"] ∧
      RCall.loKill "SIGTERM" ∉ (LO.stop env lo).tr) := by
  unfold LO.stop LO.sendKey
  by_cases hrun : lo.isRunning
  · simp only [hrun, Bool.not_true, Bool.false_eq_true, if_false]
    by_cases halive : lo.processAlive
    · simp only [halive, Bool.not_true, Bool.or_self, Bool.false_eq_true,
        if_false]
      by_cases hkey : env.sendKeyOk "Escape"
      · simp [hrun, halive, KEYS, hkey]
      · have hkey2 : env.sendKeyOk "Escape" = false := by simpa using hkey
        simp [hrun, halive, KEYS, hkey2]
    · have halive2 : lo.processAlive = false := by simpa using halive
      simp [halive2, hrun]
  · have hrun2 : lo.isRunning = false := by simpa using hrun
    simp [hrun2]

/-- Witness for lo_stop_never_throws at the running state loRun under the
failing key-dispatch environment. -/
theorem lo_stop_never_throws_witness :
    (LO.stop envLOKeyFail loRun).res = .ok () ∧
    (LO.stop envLOKeyFail loRun).lo.isRunning = false ∧
    (loRun.isRunning = false →
      (LO.stop envLOKeyFail loRun).lo = loRun ∧
      (LO.stop envLOKeyFail loRun).tr = []) ∧
    (loRun.isRunning = true → loRun.processAlive = true →
      envLOKeyFail.sendKeyOk "Escape" = false →
      (LO.stop envLOKeyFail loRun).tr
        = [RCall.loSendKey "Escape", RCall.loKill "SIGKILL"] ∧
      RCall.loKill "SIGTERM" ∉ (LO.stop envLOKeyFail loRun).tr) :=
  lo_stop_never_throws envLOKeyFail loRun

/-- A replace-create whose CreateScene wire call is denied by the oracle
always surfaces that call's failure (whether the pre-removal succeeded,
failed, or left a duplicate behind). -/
theorem factoryCreateScene_fails (env : ObsEnv) (st : Containers)
    (n : String) (hf : env.ok (.createScene n) = false) :
    (factoryCreateScene env st n).res
      = .error (.remoteCallFailed (.createScene n)) := by
  unfold factoryCreateScene callRemoveScene callCreateScene
  split <;> split <;> simp_all [Except.map]

/-- The blackout create-if-absent fails when the existence probe and the
creation call both fail. -/
theorem ensureBlackoutScene_fails (env : ObsEnv) (st : Containers)
    (h2 : env.ok (.getSceneItemList BLACKOUT_SCENE) = false)
    (h3 : env.ok (.createScene BLACKOUT_SCENE) = false) :
    (ensureBlackoutScene env st).res
      = .error (.remoteCallFailed (.createScene BLACKOUT_SCENE)) := by
  unfold ensureBlackoutScene sceneExists
  rw [h2]
  simp only [Bool.false_eq_true, if_false]
  rw [factoryCreateScene_fails env st BLACKOUT_SCENE h3]

/-- C6 counterexample: with the websocket connect succeeding but the
blackout scene absent and its CreateScene call failing, connect() raises
`Failed to connect to OBS` and leaves `connected = false` — the
blackout-creation failure is not swallowed (ensureBlackoutScene sits
inside connect's try block). -/
theorem blackout_failure_fails_connect :
    (OBSController.connect envBlackoutFail obsCtrl0 []).res
      = .error (.connectFailed
          (.remoteCallFailed (.createScene "StageForge_Blackout"))) ∧
    (OBSController.connect envBlackoutFail obsCtrl0 []).ctrl.connected
      = false := by
  refine ⟨rfl, rfl⟩

/-- C6 amended: a capture-container switch failure during Live-Render
start() is swallowed — start() succeeds with the renderer running whatever
the switch call's outcome — but a blackout-container creation failure
during connect propagates into connect's catch: connect fails and the
session ends disconnected. -/
theorem nonfatal_failures_amended (lenv : LOEnv) (oenv : ObsEnv)
    (r : RendererMode) (st : Containers) (p : Program)
    (c : OBSController) (st2 : Containers) :
    (r.currentProgram = some p → r.obsConnected = true →
      r.sceneFactorySet = true → r.lo.isRunning = false →
      lenv.available = true → lenv.spawnOk = true →
      (RendererMode.start lenv oenv r st none).res = .ok () ∧
      (RendererMode.start lenv oenv r st none).mode.lo.isRunning = true) ∧
    (oenv.ok .obsConnectCall = true →
      oenv.ok (.getSceneItemList BLACKOUT_SCENE) = false →
      oenv.ok (.createScene BLACKOUT_SCENE) = false →
      (OBSController.connect oenv c st2).res.isOk = false ∧
      (OBSController.connect oenv c st2).ctrl.connected = false) := by
  constructor
  · intro hp hconn hfac hnr hav hsp
    unfold RendererMode.start
    rw [hp]
    unfold LO.launch
    rw [hnr]
    simp only [Bool.false_eq_true, if_false, hav, hsp, Bool.not_true,
      if_true]
    simp only [hconn, hfac, Bool.and_self, if_true]
    rcases hres : (switchToScene oenv st (rendererSceneNameFor p)).res
        with e | v <;> simp [hres]
  · intro h1 h2 h3
    unfold OBSController.connect
    rw [h1]
    simp only [Bool.not_true, Bool.false_eq_true, if_false]
    rw [ensureBlackoutScene_fails oenv st2 h2 h3]
    simp [Except.isOk, Except.toBool]

/-- Witness for nonfatal_failures_amended: prog1 loaded in a Live-Render
state with a connected session and failing switch call, and a connect
attempt under the blackout-failing oracle. -/
theorem nonfatal_failures_amended_witness :
    ((⟨true, true, some prog1, 0, ⟨false, false, none, 0⟩⟩ :
        RendererMode).currentProgram = some prog1 →
      (⟨true, true, some prog1, 0, ⟨false, false, none, 0⟩⟩ :
        RendererMode).obsConnected = true →
      (⟨true, true, some prog1, 0, ⟨false, false, none, 0⟩⟩ :
        RendererMode).sceneFactorySet = true →
      (⟨true, true, some prog1, 0, ⟨false, false, none, 0⟩⟩ :
        RendererMode).lo.isRunning = false →
      envLOAllOk.available = true → envLOAllOk.spawnOk = true →
      (RendererMode.start envLOAllOk envBlackoutFail
        ⟨true, true, some prog1, 0, ⟨false, false, none, 0⟩⟩ [] none).res
          = .ok () ∧
      (RendererMode.start envLOAllOk envBlackoutFail
        ⟨true, true, some prog1, 0, ⟨false, false, none, 0⟩⟩ []
          none).mode.lo.isRunning = true) ∧
    (envBlackoutFail.ok .obsConnectCall = true →
      envBlackoutFail.ok (.getSceneItemList BLACKOUT_SCENE) = false →
      envBlackoutFail.ok (.createScene BLACKOUT_SCENE) = false →
      (OBSController.connect envBlackoutFail obsCtrl0 []).res.isOk = false ∧
      (OBSController.connect envBlackoutFail obsCtrl0 []).ctrl.connected
        = false) :=
  nonfatal_failures_amended envLOAllOk envBlackoutFail
    ⟨true, true, some prog1, 0, ⟨false, false, none, 0⟩⟩ [] prog1 obsCtrl0 []

/-- A media bind never surfaces a failure: addVideoSource returns its
input name whatever the oracle does (its try/catch only logs). -/
theorem addVideoSource_res (env : ObsEnv) (st : Containers) (s q : String) :
    (addVideoSource env st s q).res = .ok (s ++ "_Video") := by
  unfold addVideoSource callCreateInput callGetSceneItemList
    callSetSceneItemTransform
  by_cases h1 : env.ok (.createInput s (s ++ "_Video") "ffmpeg_source") = true
  · simp only [h1, if_true]
    by_cases h2 : env.ok (.getSceneItemList s) = true
    · simp only [h2, if_true]
      cases hfind : (env.items s).find?
          (fun it => it.sourceName == s ++ "_Video") with
      | none => simp [hfind]
      | some vi =>
        by_cases h3 : env.ok (.setSceneItemTransform s vi.sceneItemId) = true <;>
          simp [hfind, h3]
    · simp [h2]
  · simp [h1]

/-- An image bind surfaces the failure of its CreateInput wire call. -/
theorem addImageSource_fails_input (env : ObsEnv) (st : Containers)
    (s q : String)
    (hf : env.ok (.createInput s (s ++ "_Image") "image_source") = false) :
    (addImageSource env st s q).res
      = .error (.remoteCallFailed (.createInput s (s ++ "_Image")
          "image_source")) := by
  unfold addImageSource callCreateInput
  simp [hf]

/-- One loop iteration surfaces the failure of its act container's
CreateScene wire call. -/
theorem processAct_fails_createScene (env : ObsEnv) (p : Program) (i : Nat)
    (a : Act) (st : Containers)
    (hf : env.ok (.createScene (sceneNameFor p i)) = false) :
    (processAct env p i a st).res
      = .error (.remoteCallFailed (.createScene (sceneNameFor p i))) := by
  simp only [processAct]
  rw [factoryCreateScene_fails env st (sceneNameFor p i) hf]

/-- C3 counterexample: loading progVideo (a single act with a video asset)
under an oracle that fails exactly the media-source CreateInput succeeds —
the failing media-bind wire call is attempted (it is in the trace) yet
loadProgram reports success, so that failure does not propagate. -/
theorem media_bind_failure_swallowed :
    (SceneMode.loadProgram envMediaFail (some progVideo) m0Scene []).res.isOk
      = true ∧
    RCall.createInput "SF_p_Act1_Video1" "SF_p_Act1_Video1_Video"
        "ffmpeg_source"
      ∈ (SceneMode.loadProgram envMediaFail (some progVideo) m0Scene []).tr := by
  refine ⟨rfl, by decide⟩

/-- C3 amended: remote-call failures in the act container create and in the
image bind propagate and abort loadProgram (as does the nested
sub-container create, which routes through the same replace-create), but a
failure anywhere inside the media bind is caught and logged by
addVideoSource, which reports success regardless — loadProgram is never
aborted by a media-bind failure. -/
theorem scene_failure_propagation_amended :
    (∀ (env : ObsEnv) (st : Containers) (s q : String),
      (addVideoSource env st s q).res = .ok (s ++ "_Video")) ∧
    (∀ (env : ObsEnv) (st : Containers) (s q : String),
      env.ok (.createInput s (s ++ "_Image") "image_source") = false →
      (addImageSource env st s q).res.isOk = false) ∧
    (∀ (env : ObsEnv) (st : Containers) (parent q : String),
      env.ok (.createScene (videoSubsceneName parent 0)) = false →
      (createVideoSubscene env st parent q 0).res.isOk = false) ∧
    (∀ (env : ObsEnv) (p : Program) (m : SceneMode) (st : Containers)
        (a : Act) (rest : List Act),
      p.acts = a :: rest → m.obsConnected = true →
      env.ok (.createScene (sceneNameFor p 0)) = false →
      (SceneMode.loadProgram env (some p) m st).res.isOk = false) := by
  refine ⟨addVideoSource_res, ?_, ?_, ?_⟩
  · intro env st s q hf
    rw [addImageSource_fails_input env st s q hf]
    rfl
  · intro env st parent q hf
    simp only [createVideoSubscene]
    rw [factoryCreateScene_fails env st (videoSubsceneName parent 0) hf]
    rfl
  · intro env p m st a rest hacts hconn hfail
    simp only [SceneMode.loadProgram, SceneMode.createScenes, hconn,
      Bool.not_true, Bool.false_eq_true, if_false, if_true, hacts]
    simp only [createScenesLoop]
    rw [processAct_fails_createScene env p 0 a st hfail]
    rfl

/-- Witness for scene_failure_propagation_amended: the media bind of a
sample scene succeeds under the all-success oracle; the image bind of
prog1's container fails under envImageFail; the nested sub-container
create fails under an oracle denying it; and loading prog1 under
envCreateFail (denying the act container's CreateScene) aborts. -/
theorem scene_failure_propagation_amended_witness :
    (addVideoSource envAllOk [] "S" "v").res = .ok "S_Video" ∧
    (addImageSource envImageFail [] "SF_q_Act1" "i.png").res.isOk = false ∧
    (createVideoSubscene
      (⟨fun c => c != RCall.createScene "S_Video1", fun _ => []⟩ : ObsEnv)
      [] "S" "v" 0).res.isOk = false ∧
    (SceneMode.loadProgram envCreateFail (some prog1) m0Scene []).res.isOk
      = false :=
  ⟨scene_failure_propagation_amended.1 envAllOk [] "S" "v",
   scene_failure_propagation_amended.2.1 envImageFail [] "SF_q_Act1" "i.png"
     (by decide),
   scene_failure_propagation_amended.2.2.1
     ⟨fun c => c != RCall.createScene "S_Video1", fun _ => []⟩ [] "S" "v"
     (by decide),
   scene_failure_propagation_amended.2.2.2 envCreateFail prog1 m0Scene []
     ⟨"A1", some "i.png", none, false⟩ [] rfl rfl (by decide)⟩

/-- Mapping a function over an Except result preserves success. -/
theorem isOk_map {α β : Type} (f : α → β) (e : Except Err α) :
    (Except.map f e).isOk = e.isOk := by
  cases e <;> rfl

/-- An image bind never changes the container set. -/
theorem addImageSource_st (env : ObsEnv) (st : Containers) (s q : String) :
    (addImageSource env st s q).st = st := by
  unfold addImageSource callCreateInput callGetSceneItemList
    callSetSceneItemTransform
  by_cases h1 : env.ok (.createInput s (s ++ "_Image") "image_source") = true
  · simp only [h1, if_true]
    by_cases h2 : env.ok (.getSceneItemList s) = true
    · simp only [h2, if_true]
      cases henv : env.items s with
      | nil => simp [henv]
      | cons it rest =>
        by_cases h3 : env.ok (.setSceneItemTransform s it.sceneItemId) = true <;>
          simp [henv, h3]
    · simp [h2]
  · simp [h1]

/-- A media bind never changes the container set. -/
theorem addVideoSource_st (env : ObsEnv) (st : Containers) (s q : String) :
    (addVideoSource env st s q).st = st := by
  unfold addVideoSource callCreateInput callGetSceneItemList
    callSetSceneItemTransform
  by_cases h1 : env.ok (.createInput s (s ++ "_Video") "ffmpeg_source") = true
  · simp only [h1, if_true]
    by_cases h2 : env.ok (.getSceneItemList s) = true
    · simp only [h2, if_true]
      cases hfind : (env.items s).find?
          (fun it => it.sourceName == s ++ "_Video") with
      | none => simp [hfind]
      | some vi =>
        by_cases h3 : env.ok (.setSceneItemTransform s vi.sceneItemId) = true <;>
          simp [hfind, h3]
    · simp [h2]
  · simp [h1]

/-- An image bind under the all-success oracle succeeds and returns its
input name. -/
theorem addImageSource_allok_res (env : ObsEnv) (h : ∀ c, env.ok c = true)
    (st : Containers) (s q : String) :
    (addImageSource env st s q).res = .ok (s ++ "_Image") := by
  unfold addImageSource callCreateInput callGetSceneItemList
    callSetSceneItemTransform
  cases henv : env.items s with
  | nil => simp [h, henv]
  | cons it rest => simp [h, henv, Except.map]

/-- Replace-create under the all-success oracle always succeeds and the
final container set is the previous one plus the created name. -/
theorem factoryCreateScene_allok (env : ObsEnv) (st : Containers)
    (n : String) (h : ∀ c, env.ok c = true) :
    (factoryCreateScene env st n).res = .ok n ∧
    ∀ x, x ∈ (factoryCreateScene env st n).st ↔ x ∈ st ∨ x = n := by
  unfold factoryCreateScene callRemoveScene callCreateScene
  constructor
  · by_cases hc : n ∈ st <;> simp [hc, h, Except.map]
  · intro x
    by_cases hc : n ∈ st <;> by_cases hx : x = n <;>
      simp [hc, h, hx, List.mem_filter]

/-- Nested sub-container creation under the all-success oracle succeeds
and adds exactly the sub-container name. -/
theorem createVideoSubscene_allok (env : ObsEnv) (h : ∀ c, env.ok c = true)
    (st : Containers) (parent q : String) :
    (createVideoSubscene env st parent q 0).res
      = .ok (videoSubsceneName parent 0) ∧
    ∀ x, x ∈ (createVideoSubscene env st parent q 0).st ↔
      x ∈ st ∨ x = videoSubsceneName parent 0 := by
  obtain ⟨f1, f2⟩ :=
    factoryCreateScene_allok env st (videoSubsceneName parent 0) h
  constructor
  · simp [createVideoSubscene, f1, addVideoSource_res, Except.map]
  · intro x
    simp only [createVideoSubscene, f1, addVideoSource_st]
    exact f2 x

/-- One loop iteration under the all-success oracle succeeds and the
container set grows by exactly that act's names. -/
theorem processAct_allok (env : ObsEnv) (h : ∀ c, env.ok c = true)
    (p : Program) (i : Nat) (a : Act) (st : Containers) :
    (processAct env p i a st).res = .ok () ∧
    ∀ x, x ∈ (processAct env p i a st).st ↔ x ∈ st ∨ x ∈ actNames p i a := by
  obtain ⟨f1, f2⟩ := factoryCreateScene_allok env st (sceneNameFor p i) h
  refine ⟨?_, fun x => ?_⟩ <;>
    cases himg : a.imagePath <;> cases hvb : a.hasVideo <;>
      cases hvp : a.videoPath <;>
      simp [processAct, f1, f2, himg, hvb, hvp,
        addImageSource_allok_res env h, addImageSource_st,
        createVideoSubscene_allok env h, actNames, Except.map] <;>
      tauto

/-- The whole loop under the all-success oracle succeeds and the container
set grows by exactly the program's names from the start index on. -/
theorem createScenesLoop_allok (env : ObsEnv) (h : ∀ c, env.ok c = true)
    (p : Program) :
    ∀ (acts : List Act) (i : Nat) (acc : List SceneData) (st : Containers),
      (createScenesLoop env p acts i acc st).1 = .ok () ∧
      ∀ x, x ∈ (createScenesLoop env p acts i acc st).2.2.1 ↔
        x ∈ st ∨ x ∈ namesFrom p i acts := by
  intro acts
  induction acts with
  | nil =>
    intro i acc st
    simp [createScenesLoop, namesFrom]
  | cons a rest ih =>
    intro i acc st
    obtain ⟨p1, p2⟩ := processAct_allok env h p i a st
    simp only [createScenesLoop]
    rw [p1]
    obtain ⟨ih1, ih2⟩ := ih (i + 1) (acc ++ [sceneRecord p i a])
      (processAct env p i a st).st
    refine ⟨ih1, fun x => ?_⟩
    rw [ih2 x, p2 x]
    simp only [namesFrom, List.mem_append]
    tauto

/-- With a connected session, loadProgram reduces to the loop: the result,
container set and controller-state fields expressed through it. -/
theorem loadProgram_connected_components (env : ObsEnv) (p : Program)
    (m : SceneMode) (st : Containers) (hconn : m.obsConnected = true) :
    (SceneMode.loadProgram env (some p) m st).res
      = Except.map (fun _ => p) (createScenesLoop env p p.acts 0 [] st).1 ∧
    (SceneMode.loadProgram env (some p) m st).st
      = (createScenesLoop env p p.acts 0 [] st).2.2.1 ∧
    (SceneMode.loadProgram env (some p) m st).mode.obsConnected = true ∧
    (SceneMode.loadProgram env (some p) m st).mode.currentProgram = some p ∧
    (SceneMode.loadProgram env (some p) m st).mode.currentSceneIndex = -1 ∧
    (SceneMode.loadProgram env (some p) m st).mode.scenes
      = (createScenesLoop env p p.acts 0 [] st).2.1 := by
  simp [SceneMode.loadProgram, SceneMode.createScenes, hconn]

/-- C4: with a connected session and a healthy remote service, replace-
create makes loadProgram idempotent on the container namespace: a first
load succeeds, an immediate second load of the same Program succeeds too
(no duplicate-name error — the pre-removal absorbs every conflict) and the
final container name set is exactly the same. -/
theorem loadProgram_idempotent (env : ObsEnv) (p : Program) (m : SceneMode)
    (st : Containers) (hconn : m.obsConnected = true)
    (h : ∀ c, env.ok c = true) :
    (SceneMode.loadProgram env (some p) m st).res.isOk = true ∧
    (SceneMode.loadProgram env (some p)
        (SceneMode.loadProgram env (some p) m st).mode
        (SceneMode.loadProgram env (some p) m st).st).res.isOk = true ∧
    ∀ x, x ∈ (SceneMode.loadProgram env (some p)
        (SceneMode.loadProgram env (some p) m st).mode
        (SceneMode.loadProgram env (some p) m st).st).st ↔
      x ∈ (SceneMode.loadProgram env (some p) m st).st := by
  obtain ⟨c1res, c1st, c1conn, _, _, _⟩ :=
    loadProgram_connected_components env p m st hconn
  obtain ⟨l1, l2⟩ := createScenesLoop_allok env h p p.acts 0 [] st
  obtain ⟨c2res, c2st, _, _, _, _⟩ :=
    loadProgram_connected_components env p
      (SceneMode.loadProgram env (some p) m st).mode
      (SceneMode.loadProgram env (some p) m st).st c1conn
  obtain ⟨l1b, l2b⟩ := createScenesLoop_allok env h p p.acts 0 []
    (SceneMode.loadProgram env (some p) m st).st
  refine ⟨?_, ?_, fun x => ?_⟩
  · rw [c1res, isOk_map, l1]
    rfl
  · rw [c2res, isOk_map, l1b]
    rfl
  · rw [c2st, l2b x, c1st, l2 x]
    tauto

/-- The loop always leaves the accumulated record list equal to the
records of the prefix of acts it fully processed, the whole list on
success. -/
theorem createScenesLoop_prefix (env : ObsEnv) (p : Program) :
    ∀ (acts : List Act) (i : Nat) (acc : List SceneData) (st : Containers),
      ∃ k, k ≤ acts.length ∧
        (createScenesLoop env p acts i acc st).2.1
          = acc ++ (expectedFrom p i acts).take k ∧
        ((createScenesLoop env p acts i acc st).1.isOk = true →
          k = acts.length) := by
  intro acts
  induction acts with
  | nil =>
    intro i acc st
    exact ⟨0, by simp [createScenesLoop, expectedFrom]⟩
  | cons a rest ih =>
    intro i acc st
    rcases hres : (processAct env p i a st).res with e | u
    · refine ⟨0, by omega, ?_, ?_⟩
      · simp [createScenesLoop, hres]
      · simp [createScenesLoop, hres, Except.isOk, Except.toBool]
    · obtain ⟨k, hk, hsc, hkok⟩ := ih (i + 1) (acc ++ [sceneRecord p i a])
        (processAct env p i a st).st
      refine ⟨k + 1, by simpa using Nat.succ_le_succ hk, ?_, ?_⟩
      · simp only [createScenesLoop, hres, expectedFrom, List.take_succ_cons]
        rw [hsc]
        simp
      · intro hok
        have hok2 : (createScenesLoop env p rest (i + 1)
            (acc ++ [sceneRecord p i a]) (processAct env p i a st).st).1.isOk
            = true := by
          simpa [createScenesLoop, hres] using hok
        have := hkok hok2
        simp [List.length_cons, this]

/-- C10: Scene-Graph loadProgram is not atomic on failure — after any run
with a connected session (a failing one included), the controller already
holds the new Program with the position sentinel -1, getStatus reports the
program as loaded with totalScenes equal to the record count, and the
record list is exactly the records of the fully processed prefix of acts
(all of them exactly when the load succeeded). -/
theorem loadProgram_partial_state_on_failure (env : ObsEnv) (p : Program)
    (m : SceneMode) (st : Containers) (hconn : m.obsConnected = true) :
    (SceneMode.loadProgram env (some p) m st).mode.currentProgram = some p ∧
    (SceneMode.loadProgram env (some p) m st).mode.currentSceneIndex = -1 ∧
    (SceneMode.getStatus
      (SceneMode.loadProgram env (some p) m st).mode).programLoaded = true ∧
    (SceneMode.getStatus
      (SceneMode.loadProgram env (some p) m st).mode).currentScene = -1 ∧
    (SceneMode.getStatus
      (SceneMode.loadProgram env (some p) m st).mode).totalScenes
      = (SceneMode.loadProgram env (some p) m st).mode.scenes.length ∧
    ∃ k, k ≤ p.acts.length ∧
      (SceneMode.loadProgram env (some p) m st).mode.scenes
        = (expectedScenes p).take k ∧
      ((SceneMode.loadProgram env (some p) m st).res.isOk = true →
        k = p.acts.length) := by
  obtain ⟨cres, _, _, cprog, cidx, cscenes⟩ :=
    loadProgram_connected_components env p m st hconn
  obtain ⟨k, hk, hsc, hkok⟩ := createScenesLoop_prefix env p p.acts 0 [] st
  refine ⟨cprog, cidx, ?_, ?_, ?_, k, hk, ?_, ?_⟩
  · simp [SceneMode.getStatus, cprog]
  · simp [SceneMode.getStatus, cidx]
  · simp [SceneMode.getStatus]
  · rw [cscenes, hsc]
    simp [expectedScenes]
  · intro hok
    rw [cres, isOk_map] at hok
    exact hkok hok

/-- Witness for loadProgram_partial_state_on_failure: loading prog1 under
the oracle that denies its act container's CreateScene call (the load
fails after creating no record). -/
theorem loadProgram_partial_state_on_failure_witness :
    (SceneMode.loadProgram envCreateFail (some prog1) m0Scene
      []).mode.currentProgram = some prog1 ∧
    (SceneMode.loadProgram envCreateFail (some prog1) m0Scene
      []).mode.currentSceneIndex = -1 ∧
    (SceneMode.getStatus
      (SceneMode.loadProgram envCreateFail (some prog1) m0Scene
        []).mode).programLoaded = true ∧
    (SceneMode.getStatus
      (SceneMode.loadProgram envCreateFail (some prog1) m0Scene
        []).mode).currentScene = -1 ∧
    (SceneMode.getStatus
      (SceneMode.loadProgram envCreateFail (some prog1) m0Scene
        []).mode).totalScenes
      = (SceneMode.loadProgram envCreateFail (some prog1) m0Scene
          []).mode.scenes.length ∧
    ∃ k, k ≤ prog1.acts.length ∧
      (SceneMode.loadProgram envCreateFail (some prog1) m0Scene
        []).mode.scenes = (expectedScenes prog1).take k ∧
      ((SceneMode.loadProgram envCreateFail (some prog1) m0Scene
        []).res.isOk = true → k = prog1.acts.length) :=
  loadProgram_partial_state_on_failure envCreateFail prog1 m0Scene []
    (by decide)

/-- Witness for loadProgram_idempotent at prog1 from the empty namespace. -/
theorem loadProgram_idempotent_witness :
    (SceneMode.loadProgram envAllOk (some prog1) m0Scene []).res.isOk = true ∧
    (SceneMode.loadProgram envAllOk (some prog1)
        (SceneMode.loadProgram envAllOk (some prog1) m0Scene []).mode
        (SceneMode.loadProgram envAllOk (some prog1) m0Scene []).st).res.isOk
      = true ∧
    ∀ x, x ∈ (SceneMode.loadProgram envAllOk (some prog1)
        (SceneMode.loadProgram envAllOk (some prog1) m0Scene []).mode
        (SceneMode.loadProgram envAllOk (some prog1) m0Scene []).st).st ↔
      x ∈ (SceneMode.loadProgram envAllOk (some prog1) m0Scene []).st :=
  loadProgram_idempotent envAllOk prog1 m0Scene [] (by decide) (fun _ => rfl)

/-- Witness for sceneMode_next_prev_clamp at the concrete state mScene0
(connected, one container, position 0) under the all-success oracle. -/
theorem sceneMode_next_prev_clamp_witness :
    (mScene0.scenes ≠ [] →
      (SceneMode.next envAllOk mScene0 []).res.isOk = true ∧
      (SceneMode.next envAllOk mScene0 []).mode.currentSceneIndex
        = min (mScene0.currentSceneIndex + 1) ((mScene0.scenes.length : Int) - 1) ∧
      (SceneMode.prev envAllOk mScene0 []).res.isOk = true ∧
      (SceneMode.prev envAllOk mScene0 []).mode.currentSceneIndex
        = max (mScene0.currentSceneIndex - 1) 0 ∧
      (mScene0.currentSceneIndex = (mScene0.scenes.length : Int) - 1 →
        (SceneMode.next envAllOk mScene0 []).mode.currentSceneIndex
          = mScene0.currentSceneIndex) ∧
      (SceneMode.next envAllOk mScene0 []).res ≠ .error .invalidSceneIndex) ∧
    (mScene0.scenes = [] →
      (SceneMode.next envAllOk mScene0 []).res = .error .noScenesLoaded ∧
      (SceneMode.prev envAllOk mScene0 []).res = .error .noScenesLoaded) :=
  sceneMode_next_prev_clamp envAllOk mScene0 [] (by decide)
    (fun _ => rfl) (by decide) (by decide)
